import Mathlib

/-!
A shallow embedding of `TwincatAds.py` (the `TwincatAds` Tango device server):
manifest parsing, dynamic attribute construction, the generic per-attribute
read/write handlers, and the `read_float_array` command.

The PLC and the pyads client library are external collaborators; they are
modelled as a state record `Plc`:
  * `vals`       — the scalar value currently stored at each symbol name;
  * `arraySize`  — each symbol's declared `array_size`;
  * `floatMem`   — per symbol name, the REAL-array memory as a list of 32-bit
                   patterns (one entry per 4-byte float, in PLC memory order;
                   the bit-pattern/float bijection is irrelevant here);
  * `resolvable` — whether `plc.get_symbol(name)` succeeds.
Scalar values have an abstract type `V`, and Python's runtime type of a value
(`type(value)`, used as the attribute dtype) is modelled by an abstract
function `typeOf : V → T`.
-/

/-- Python-level exceptions that the adapter's code paths can raise. -/
inductive PyError where
  | valueError (msg : String)
  | keyError (key : String)
  | indexError
  | adsError (name : String)
  deriving DecidableEq, Repr

/-- The handle returned by `plc.get_symbol(name)`. -/
structure AdsSymbol where
  name : String
  array_size : Nat
  deriving DecidableEq, Repr

/-- The external PLC (connection + pyads client library) as observable state. -/
structure Plc (V : Type) where
  vals : String → V
  arraySize : String → Nat
  floatMem : String → List Nat
  resolvable : String → Bool

/-- `plc.get_symbol(name)`: resolve an ADS symbol; raises if unresolvable. -/
def Plc.get_symbol {V : Type} (plc : Plc V) (name : String) :
    Except PyError AdsSymbol :=
  if plc.resolvable name then .ok { name := name, array_size := plc.arraySize name }
  else .error (.adsError name)

/-- `symbol.read()`: the symbol's current scalar value on the PLC. -/
def AdsSymbol.read {V : Type} (sym : AdsSymbol) (plc : Plc V) : V :=
  plc.vals sym.name

/-- `symbol.write(v)`: update the scalar value stored at the symbol's name. -/
def Plc.writeVal {V : Type} (plc : Plc V) (symName : String) (v : V) : Plc V :=
  { plc with vals := fun n => if n = symName then v else plc.vals n }

/-- Auxiliary for Python's `str.split(",")`: split a character list at commas. -/
def splitCommaAux : List Char → List Char → List (List Char)
  | [], acc => [acc.reverse]
  | c :: cs, acc =>
    if c = ',' then acc.reverse :: splitCommaAux cs []
    else splitCommaAux cs (c :: acc)

/-- Python `line.split(",")`. -/
def pySplitComma (s : String) : List String :=
  (splitCommaAux s.data []).map String.mk

/-- Python `str.strip()`: drop leading and trailing whitespace. -/
def pyStrip (s : String) : String :=
  String.mk (((s.data.dropWhile Char.isWhitespace).reverse.dropWhile
    Char.isWhitespace).reverse)

/-- Python tuple unpacking `name, label, access = l` for a 3-element list;
raises `ValueError` on any other length. -/
def unpack3 : List String → Except PyError (String × String × String)
  | [a, b, c] => .ok (a, b, c)
  | _ => .error (.valueError "unpack")

/-- `name, label, access = [s.strip() for s in line.split(",")]`. -/
def parseLine (line : String) : Except PyError (String × String × String) :=
  unpack3 ((pySplitComma line).map pyStrip)

/-- `AttrWriteType` of the Tango framework (the two values this code uses). -/
inductive AttrWriteType where
  | READ
  | READ_WRITE
  deriving DecidableEq, Repr

/-- The bound method passed as `fget`/`fset` when the attribute is built. -/
inductive Handler where
  | genericRead
  | genericWrite
  deriving DecidableEq, Repr

/-- One dynamic attribute as registered by `self.add_attribute(attr)`:
`attribute(name=label, dtype=type(value), access=..., fget=..., fset=...)`. -/
structure AttrSpec (T : Type) where
  name : String
  dtype : T
  access : AttrWriteType
  fget : Handler
  fset : Handler
  deriving DecidableEq, Repr

/-- The device-side state mutated during attribute construction:
`self.symbols` (a dict: label → symbol handle), the attributes added so far
(in registration order), and the warning messages printed to `log_warning`. -/
structure DevData (T : Type) where
  symbols : String → Option AdsSymbol
  attrs : List (AttrSpec T)
  warnings : List String

/-- Python dict assignment `self.symbols[label] = symbol`. -/
def updateSymbols (tbl : String → Option AdsSymbol) (label : String)
    (sym : AdsSymbol) : String → Option AdsSymbol :=
  fun k => if k = label then some sym else tbl k

/-- Device state before any manifest line is processed. -/
def initialDev (T : Type) : DevData T :=
  { symbols := fun _ => none, attrs := [], warnings := [] }

/-- The body of the per-line loop of `initialize_dynamic_attributes`:
parse the line, resolve the symbol, record it in `self.symbols`, then either
warn-and-skip (array symbol) or read the value and register the attribute. -/
def processLine {V T : Type} (plc : Plc V) (typeOf : V → T) (st : DevData T)
    (line : String) : Except PyError (DevData T) :=
  match parseLine line with
  | .error e => .error e
  | .ok (name, label, access) =>
    match plc.get_symbol name with
    | .error e => .error e
    | .ok symbol =>
      let st1 : DevData T := { st with symbols := updateSymbols st.symbols label symbol }
      if symbol.array_size > 1 then
        .ok { st1 with warnings := st1.warnings ++ [name ++ " is not a scalar. Ignoring."] }
      else
        let value := symbol.read plc
        .ok { st1 with attrs := st1.attrs ++ [{
          name := label,
          dtype := typeOf value,
          access := if access = "rw" then .READ_WRITE else .READ,
          fget := .genericRead,
          fset := .genericWrite }] }

/-- `initialize_dynamic_attributes`: fold `processLine` over the manifest.
A raised exception propagates (second component `some e`), and the device
state already mutated by earlier iterations is kept — Python performs no
rollback of `add_attribute` / `self.symbols` on an exception. -/
def initDynamicAttributes {V T : Type} (plc : Plc V) (typeOf : V → T) :
    List String → DevData T → DevData T × Option PyError
  | [], st => (st, none)
  | line :: rest, st =>
    match processLine plc typeOf st line with
    | .error e => (st, some e)
    | .ok st' => initDynamicAttributes plc typeOf rest st'

/-- `generic_read(self, attr)`: look the attribute's name up in
`self.symbols` (KeyError if absent) and read the symbol from the PLC. -/
def generic_read {V T : Type} (dev : DevData T) (plc : Plc V)
    (attrName : String) : Except PyError V :=
  match dev.symbols attrName with
  | some sym => .ok (sym.read plc)
  | none => .error (.keyError attrName)

/-- `generic_write(self, attr)`: look the attribute's name up in
`self.symbols` and write the caller's value to the PLC. -/
def generic_write {V T : Type} (dev : DevData T) (plc : Plc V)
    (attrName : String) (v : V) : Except PyError (Plc V) :=
  match dev.symbols attrName with
  | some sym => .ok (plc.writeVal sym.name v)
  | none => .error (.keyError attrName)

/-- pyads `plc.read_by_name(name, n * PLCTYPE_REAL)` for `n ≥ 0`: read the
first `n` REALs of the symbol's memory, in PLC memory order; an ADS error if
the symbol holds fewer than `n` elements. -/
def Plc.read_by_name {V : Type} (plc : Plc V) (name : String) (n : Nat) :
    Except PyError (List Nat) :=
  if n ≤ (plc.floatMem name).length then .ok ((plc.floatMem name).take n)
  else .error (.adsError name)

/-- The `read_float_array` command. `argin` is a `DevVarLongStringArray`
(a pair of an integer array and a string array); the code uses `argin[0][0]`
as the count and `argin[1][0]` as the symbol name, then calls
`self.plc.read_by_name(name, npts * pyads.PLCTYPE_REAL)`. The PLC data type
argument `npts * pyads.PLCTYPE_REAL` is a ctypes array type, built before the
call; ctypes rejects a negative array length with `ValueError`, so a negative
`npts` raises instead of reaching `read_by_name`. -/
def read_float_array {V : Type} (plc : Plc V) (argin : List Int × List String) :
    Except PyError (List Nat) :=
  match argin.1 with
  | [] => .error .indexError
  | npts :: _ =>
    match argin.2 with
    | [] => .error .indexError
    | name :: _ =>
      if npts < 0 then .error (.valueError "Array length must be >= 0")
      else plc.read_by_name name npts.toNat

deriving instance DecidableEq for Except

/-! ### Concrete fixtures used by witnesses and counterexamples -/

/-- A dtype model that forgets the runtime type (enough for most claims). -/
def tyUnit {V : Type} : V → Unit := fun _ => ()

/-- A concrete PLC: scalar `MAIN.x` holding 7, array symbol `MAIN.arr` of
declared size 2, REAL array `MAIN.array1` of 100 elements, and one
unresolvable name `MAIN.bad`. -/
def plcA : Plc Int :=
  { vals := fun n => if n = "MAIN.x" then 7 else 0,
    arraySize := fun n => if n = "MAIN.arr" then 2 else 1,
    floatMem := fun n => if n = "MAIN.array1" then List.range 100 else [],
    resolvable := fun n => if n = "MAIN.bad" then false else true }

/-- `plcA` after the PLC-side value of `MAIN.x` changed to 9. -/
def plcA2 : Plc Int :=
  { plcA with vals := fun n => if n = "MAIN.x" then 9 else 0 }

/-- The device state after registering the single manifest line
`MAIN.x, out, rw`. -/
def devA : DevData Unit :=
  (initDynamicAttributes plcA tyUnit ["MAIN.x, out, rw"] (initialDev Unit)).1

/-! ### Helper lemmas -/

theorem initDyn_nil {V T : Type} (plc : Plc V) (typeOf : V → T) (st : DevData T) :
    initDynamicAttributes plc typeOf [] st = (st, none) := rfl

theorem initDyn_cons {V T : Type} (plc : Plc V) (typeOf : V → T) (st : DevData T)
    (line : String) (rest : List String) :
    initDynamicAttributes plc typeOf (line :: rest) st =
      match processLine plc typeOf st line with
      | .error e => (st, some e)
      | .ok st' => initDynamicAttributes plc typeOf rest st' := rfl

theorem unpack3_error (l : List String) (h : l.length ≠ 3) :
    unpack3 l = .error (.valueError "unpack") := by
  rcases l with _ | ⟨a, _ | ⟨b, _ | ⟨c, _ | ⟨d, t⟩⟩⟩⟩
  · rfl
  · rfl
  · rfl
  · simp at h
  · rfl

theorem parseLine_error_of_bad_split (line : String)
    (h : (pySplitComma line).length ≠ 3) :
    parseLine line = .error (.valueError "unpack") := by
  unfold parseLine
  exact unpack3_error _ (by simpa using h)

/-! ### C1 — array-size > 1 handling -/

/-- C1 counterexample: for the single manifest line `MAIN.arr, arr, ro`, whose
resolved symbol has `array_size = 2 > 1`, the warning is emitted, no attribute
is created, and processing finishes without error — but, contrary to the
claim, a label → symbol-handle entry for `arr` IS recorded in `self.symbols`
(the dict assignment precedes the array-size check). -/
theorem C1_counterexample :
    (initDynamicAttributes plcA tyUnit ["MAIN.arr, arr, ro"] (initialDev Unit)).2
        = none ∧
    (initDynamicAttributes plcA tyUnit ["MAIN.arr, arr, ro"] (initialDev Unit)).1.attrs
        = [] ∧
    (initDynamicAttributes plcA tyUnit ["MAIN.arr, arr, ro"] (initialDev Unit)).1.warnings
        = ["MAIN.arr is not a scalar. Ignoring."] ∧
    (initDynamicAttributes plcA tyUnit ["MAIN.arr, arr, ro"] (initialDev Unit)).1.symbols "arr"
        = some ⟨"MAIN.arr", 2⟩ := by
  refine ⟨rfl, rfl, rfl, rfl⟩

/-- C1 (amended): for a manifest line whose resolved symbol has
`array_size > 1`, a warning is emitted, no dynamic attribute is created for
the line, the label → symbol-handle entry IS recorded in the symbol table
(the dict assignment happens before the array-size check), and processing
continues with the next manifest line. -/
theorem C1_array_skip {V T : Type} (plc : Plc V) (typeOf : V → T)
    (st : DevData T) (line name label acc : String) (rest : List String)
    (hp : parseLine line = .ok (name, label, acc))
    (hr : plc.resolvable name = true)
    (hs : 1 < plc.arraySize name) :
    initDynamicAttributes plc typeOf (line :: rest) st =
      initDynamicAttributes plc typeOf rest
        { st with
          symbols := updateSymbols st.symbols label ⟨name, plc.arraySize name⟩,
          warnings := st.warnings ++ [name ++ " is not a scalar. Ignoring."] } := by
  have hpl : processLine plc typeOf st line = .ok
      { st with
        symbols := updateSymbols st.symbols label ⟨name, plc.arraySize name⟩,
        warnings := st.warnings ++ [name ++ " is not a scalar. Ignoring."] } := by
    unfold processLine
    rw [hp]
    simp [Plc.get_symbol, hr, hs]
  rw [initDyn_cons, hpl]

/-- C1 amended-claim witness at the concrete line `MAIN.arr, arr, ro`. -/
theorem C1_array_skip_witness :
    parseLine "MAIN.arr, arr, ro" = .ok ("MAIN.arr", "arr", "ro") ∧
    plcA.resolvable "MAIN.arr" = true ∧
    1 < plcA.arraySize "MAIN.arr" ∧
    initDynamicAttributes plcA tyUnit ["MAIN.arr, arr, ro"] (initialDev Unit) =
      initDynamicAttributes plcA tyUnit []
        { initialDev Unit with
          symbols := updateSymbols (initialDev Unit).symbols "arr" ⟨"MAIN.arr", 2⟩,
          warnings := (initialDev Unit).warnings ++
            ["MAIN.arr is not a scalar. Ignoring."] } :=
  ⟨by decide, by decide, by decide,
    C1_array_skip plcA tyUnit (initialDev Unit) "MAIN.arr, arr, ro"
      "MAIN.arr" "arr" "ro" [] (by decide) (by decide) (by decide)⟩

/-! ### C2 — read_float_array with a negative count -/

/-- C2 (code bug): the command's own docstring promises that a negative count
returns the symbol's entire declared array, but the code builds the pyads data
type as `npts * pyads.PLCTYPE_REAL`, and ctypes rejects a negative array
length with `ValueError`. At count `-1` for `MAIN.array1` (declared length
100) the call therefore raises instead of returning the 100 elements. -/
theorem C2_negative_count_raises :
    read_float_array plcA ([(-1 : Int)], ["MAIN.array1"]) =
      .error (.valueError "Array length must be >= 0") ∧
    (plcA.floatMem "MAIN.array1").length = 100 := by
  refine ⟨rfl, by decide⟩

/-! ### C3 — unresolvable symbol aborts initialization -/

/-- C3 counterexample: with the manifest `[MAIN.x, out, ro ; MAIN.bad, b, ro]`
where only `MAIN.bad` fails to resolve, initialization does abort with the
propagated resolution error — but, contrary to the claim, the attribute for
the earlier good line has already been registered (`attrs ≠ []`): the bad
line's position matters. -/
theorem C3_counterexample :
    (initDynamicAttributes plcA tyUnit ["MAIN.x, out, ro", "MAIN.bad, b, ro"]
        (initialDev Unit)).2 = some (.adsError "MAIN.bad") ∧
    (initDynamicAttributes plcA tyUnit ["MAIN.x, out, ro", "MAIN.bad, b, ro"]
        (initialDev Unit)).1.attrs
      = [⟨"out", (), .READ, .genericRead, .genericWrite⟩] := by
  refine ⟨rfl, rfl⟩

/-- C3 (amended): if a manifest line names a symbol that fails to resolve,
the error propagates and attribute construction aborts at that line: no
attribute is registered for the failing line or any later line, but the
attributes (and symbol-table entries) of the earlier, successful lines have
already been registered and are not rolled back by the adapter. -/
theorem C3_abort_keeps_earlier {V T : Type} (plc : Plc V) (typeOf : V → T)
    (st0 : DevData T) (pre post : List String) (bad name label acc : String)
    (hpre : (initDynamicAttributes plc typeOf pre st0).2 = none)
    (hp : parseLine bad = .ok (name, label, acc))
    (hr : plc.resolvable name = false) :
    initDynamicAttributes plc typeOf (pre ++ bad :: post) st0 =
      ((initDynamicAttributes plc typeOf pre st0).1, some (.adsError name)) := by
  induction pre generalizing st0 with
  | nil =>
    have hbad : processLine plc typeOf st0 bad = .error (.adsError name) := by
      unfold processLine
      rw [hp]
      simp [Plc.get_symbol, hr]
    simp only [List.nil_append, initDyn_cons, hbad, initDyn_nil]
  | cons l ls ih =>
    rw [initDyn_cons] at hpre
    rw [List.cons_append, initDyn_cons, initDyn_cons]
    cases hl : processLine plc typeOf st0 l with
    | error e => rw [hl] at hpre; simp at hpre
    | ok st1 =>
      rw [hl] at hpre
      simp only
      exact ih st1 hpre

/-- C3 amended-claim witness: good line before the bad line; the good line's
attribute survives, and the final outcome is the propagated error. -/
theorem C3_abort_witness :
    (initDynamicAttributes plcA tyUnit ["MAIN.x, out, ro"] (initialDev Unit)).2
        = none ∧
    parseLine "MAIN.bad, b, ro" = .ok ("MAIN.bad", "b", "ro") ∧
    plcA.resolvable "MAIN.bad" = false ∧
    initDynamicAttributes plcA tyUnit
        (["MAIN.x, out, ro"] ++ "MAIN.bad, b, ro" :: []) (initialDev Unit) =
      ((initDynamicAttributes plcA tyUnit ["MAIN.x, out, ro"] (initialDev Unit)).1,
        some (.adsError "MAIN.bad")) :=
  ⟨by decide, by decide, by decide,
    C3_abort_keeps_earlier plcA tyUnit (initialDev Unit) ["MAIN.x, out, ro"] []
      "MAIN.bad, b, ro" "MAIN.bad" "b" "ro" (by decide) (by decide) (by decide)⟩

/-! ### C4 — write-then-read round-trip for rw attributes -/

/-- C4: for an attribute registered read-write, a `generic_write` of `v`
followed by a `generic_read` of the same attribute returns `v` (the model's
PLC store returns exactly what was written, which is the claim's assumption,
and nothing else mutates the PLC between the two calls). -/
theorem C4_write_then_read {V T : Type} (dev : DevData T) (plc plc' : Plc V)
    (lbl : String) (v : V) (a : AttrSpec T)
    (ha : a ∈ dev.attrs) (hn : a.name = lbl) (hacc : a.access = .READ_WRITE)
    (hw : generic_write dev plc lbl v = .ok plc') :
    generic_read dev plc' lbl = .ok v := by
  unfold generic_write at hw
  cases hs : dev.symbols lbl with
  | none => rw [hs] at hw; cases hw
  | some sym =>
    rw [hs] at hw
    injection hw with hw
    subst hw
    unfold generic_read
    rw [hs]
    simp [AdsSymbol.read, Plc.writeVal]

/-- C4 witness: `devA` holds the rw attribute `out` backed by `MAIN.x`;
writing 5 and reading it back returns 5. -/
theorem C4_write_then_read_witness :
    (⟨"out", (), .READ_WRITE, .genericRead, .genericWrite⟩ : AttrSpec Unit)
        ∈ devA.attrs ∧
    generic_write devA plcA "out" 5 = .ok (plcA.writeVal "MAIN.x" 5) ∧
    generic_read devA (plcA.writeVal "MAIN.x" 5) "out" = .ok 5 :=
  ⟨by decide, rfl,
    C4_write_then_read devA plcA (plcA.writeVal "MAIN.x" 5) "out" 5
      ⟨"out", (), .READ_WRITE, .genericRead, .genericWrite⟩
      (by decide) rfl rfl rfl⟩

/-! ### C5 — malformed manifest line is fatal -/

/-- Processing a manifest aborts (propagated error) whenever it contains a
line on which `processLine` always raises. -/
theorem initDyn_isSome_of_bad {V T : Type} (plc : Plc V) (typeOf : V → T)
    (line : String) (e : PyError)
    (herr : ∀ st : DevData T, processLine plc typeOf st line = .error e) :
    ∀ (lines : List String) (st : DevData T), line ∈ lines →
      (initDynamicAttributes plc typeOf lines st).2.isSome = true := by
  intro lines
  induction lines with
  | nil => intro st h; cases h
  | cons l ls ih =>
    intro st hmem
    rw [initDyn_cons]
    cases hl : processLine plc typeOf st l with
    | error e' => simp
    | ok st' =>
      simp only
      cases hmem with
      | head => rw [herr st] at hl; cases hl
      | tail _ h => exact ih st' h

/-- C5: a manifest line that does not split into exactly three comma-separated
fields makes `processLine` raise the propagated unpacking `ValueError` (from
whatever device state it is reached in), and any startup whose manifest
contains such a line ends with a propagated error — no partial-success mode. -/
theorem C5_malformed_fatal {V T : Type} (plc : Plc V) (typeOf : V → T)
    (st : DevData T) (lines : List String) (line : String)
    (hmem : line ∈ lines)
    (hbad : (pySplitComma line).length ≠ 3) :
    (∀ st' : DevData T, processLine plc typeOf st' line =
        .error (.valueError "unpack")) ∧
    (initDynamicAttributes plc typeOf lines st).2.isSome = true := by
  have herr : ∀ st' : DevData T, processLine plc typeOf st' line =
      .error (.valueError "unpack") := by
    intro st'
    unfold processLine
    rw [parseLine_error_of_bad_split line hbad]
  exact ⟨herr, initDyn_isSome_of_bad plc typeOf line _ herr lines st hmem⟩

/-- C5 witness: the two-field line `bad line` (it has no comma at all) aborts
a startup whose manifest contains it. -/
theorem C5_malformed_fatal_witness :
    ("bad line" ∈ ["MAIN.x, out, ro", "bad line"]) ∧
    (pySplitComma "bad line").length ≠ 3 ∧
    (initDynamicAttributes plcA tyUnit ["MAIN.x, out, ro", "bad line"]
        (initialDev Unit)).2.isSome = true :=
  ⟨by decide, by decide,
    (C5_malformed_fatal plcA tyUnit (initialDev Unit)
      ["MAIN.x, out, ro", "bad line"] "bad line" (by decide) (by decide)).2⟩

/-! ### C6 — access token decides the write mode -/

/-- C6: for a successfully registered manifest line, the trimmed access token
`rw` yields a READ_WRITE attribute and any other token yields a READ (i.e.
read-only) attribute; in both cases the attribute is named by the label and
bound to the two generic handlers. -/
theorem C6_access_mode {V T : Type} (plc : Plc V) (typeOf : V → T)
    (st : DevData T) (line name label acc : String)
    (hp : parseLine line = .ok (name, label, acc))
    (hr : plc.resolvable name = true)
    (hs : plc.arraySize name ≤ 1) :
    (acc = "rw" →
      processLine plc typeOf st line = .ok { st with
        symbols := updateSymbols st.symbols label ⟨name, plc.arraySize name⟩,
        attrs := st.attrs ++ [⟨label, typeOf (plc.vals name), .READ_WRITE,
          .genericRead, .genericWrite⟩] }) ∧
    (acc ≠ "rw" →
      processLine plc typeOf st line = .ok { st with
        symbols := updateSymbols st.symbols label ⟨name, plc.arraySize name⟩,
        attrs := st.attrs ++ [⟨label, typeOf (plc.vals name), .READ,
          .genericRead, .genericWrite⟩] }) := by
  have hnot : ¬ (1 < plc.arraySize name) := by omega
  constructor
  · intro hacc
    unfold processLine
    rw [hp]
    simp [Plc.get_symbol, hr, hnot, hacc, AdsSymbol.read]
  · intro hacc
    unfold processLine
    rw [hp]
    simp [Plc.get_symbol, hr, hnot, hacc, AdsSymbol.read]

/-- C6 witness at the ro line `MAIN.x, out, ro`: the non-`rw` token yields a
READ attribute. -/
theorem C6_access_mode_witness :
    parseLine "MAIN.x, out, ro" = .ok ("MAIN.x", "out", "ro") ∧
    processLine plcA tyUnit (initialDev Unit) "MAIN.x, out, ro" =
      .ok { initialDev Unit with
        symbols := updateSymbols (initialDev Unit).symbols "out" ⟨"MAIN.x", 1⟩,
        attrs := (initialDev Unit).attrs ++
          [⟨"out", (), .READ, .genericRead, .genericWrite⟩] } :=
  ⟨by decide,
    (C6_access_mode plcA tyUnit (initialDev Unit) "MAIN.x, out, ro"
      "MAIN.x" "out" "ro" (by decide) (by decide) (by decide)).2 (by decide)⟩

/-! ### C7 — read_float_array with a non-negative count -/

/-- C7: with a non-negative count `npts` (and a symbol holding at least that
many REALs), `read_float_array` performs the raw named read — no symbol-table
lookup is involved, the function does not even receive the device state — and
returns exactly `npts` 4-byte float values, the initial segment of the
symbol's memory in PLC order. -/
theorem C7_nonneg_reads_count {V : Type} (plc : Plc V) (npts : Int)
    (name : String) (r1 : List Int) (r2 : List String)
    (h0 : 0 ≤ npts) (hlen : npts.toNat ≤ (plc.floatMem name).length) :
    read_float_array plc (npts :: r1, name :: r2) =
      .ok ((plc.floatMem name).take npts.toNat) ∧
    ((plc.floatMem name).take npts.toNat).length = npts.toNat := by
  constructor
  · unfold read_float_array
    simp only
    rw [if_neg (by omega : ¬ npts < 0)]
    unfold Plc.read_by_name
    rw [if_pos hlen]
  · rw [List.length_take]
    exact Nat.min_eq_left hlen

/-- C7 witness: `read_float_array(50, MAIN.array1)` on a 100-element symbol
returns exactly the first 50 elements. -/
theorem C7_nonneg_reads_count_witness :
    (0 : Int) ≤ 50 ∧
    (50 : Int).toNat ≤ (plcA.floatMem "MAIN.array1").length ∧
    read_float_array plcA ([(50 : Int)], ["MAIN.array1"]) =
      .ok ((plcA.floatMem "MAIN.array1").take 50) ∧
    ((plcA.floatMem "MAIN.array1").take 50).length = 50 :=
  ⟨by decide, by decide,
    C7_nonneg_reads_count plcA 50 "MAIN.array1" [] [] (by decide) (by decide)⟩

/-! ### C8 — generic_read is a live round-trip -/

/-- C8: `generic_read` looks the attribute's name up in the symbol table and
returns the PLC's current value at that symbol, whatever the PLC state is at
call time — the result tracks every PLC state, so no cached value is ever
returned. -/
theorem C8_fresh_read {V T : Type} (dev : DevData T) (lbl : String)
    (sym : AdsSymbol) (h : dev.symbols lbl = some sym) :
    ∀ plc : Plc V, generic_read dev plc lbl = .ok (plc.vals sym.name) := by
  intro plc
  unfold generic_read
  rw [h]
  rfl

/-- C8 witness: reading `out` on `devA` under two PLC states where `MAIN.x`
holds 7 and 9 respectively returns 7 and 9 — the live value each time. -/
theorem C8_fresh_read_witness :
    devA.symbols "out" = some ⟨"MAIN.x", 1⟩ ∧
    generic_read devA plcA "out" = .ok 7 ∧
    generic_read devA plcA2 "out" = .ok 9 :=
  ⟨by decide,
    C8_fresh_read devA "out" ⟨"MAIN.x", 1⟩ (by decide) plcA,
    C8_fresh_read devA "out" ⟨"MAIN.x", 1⟩ (by decide) plcA2⟩

/-! ### C9 — the write handler is always bound -/

/-- Any attribute present after one `processLine` step was either already
there or is the newly built one, whose `fget`/`fset` are the two generic
handlers (whatever the access token was). -/
theorem processLine_attr_handlers {V T : Type} (plc : Plc V) (typeOf : V → T)
    (st st' : DevData T) (line : String)
    (h : processLine plc typeOf st line = .ok st') :
    ∀ a ∈ st'.attrs, a ∈ st.attrs ∨
      (a.fget = .genericRead ∧ a.fset = .genericWrite) := by
  unfold processLine at h
  cases hp : parseLine line with
  | error e => rw [hp] at h; cases h
  | ok triple =>
    obtain ⟨nm, lb, ac⟩ := triple
    rw [hp] at h
    dsimp only at h
    cases hg : plc.get_symbol nm with
    | error e => rw [hg] at h; cases h
    | ok sym =>
      rw [hg] at h
      dsimp only at h
      by_cases hsz : sym.array_size > 1
      · rw [if_pos hsz] at h
        injection h with h
        subst h
        intro a ha
        exact Or.inl ha
      · rw [if_neg hsz] at h
        injection h with h
        subst h
        intro a ha
        rcases List.mem_append.mp ha with ha | ha
        · exact Or.inl ha
        · rcases List.mem_singleton.mp ha with rfl
          exact Or.inr ⟨rfl, rfl⟩

/-- C9: every dynamically created attribute — read-only ones included — has
the generic write handler bound as its `fset` (and the generic read handler
as its `fget`); read-only protection can only come from the registered access
mode, never from a missing handler. -/
theorem C9_setter_always_bound {V T : Type} (plc : Plc V) (typeOf : V → T)
    (lines : List String) (st : DevData T)
    (hst : ∀ a ∈ st.attrs, a.fget = .genericRead ∧ a.fset = .genericWrite) :
    ∀ a ∈ (initDynamicAttributes plc typeOf lines st).1.attrs,
      a.fget = .genericRead ∧ a.fset = .genericWrite := by
  induction lines generalizing st with
  | nil => simpa [initDyn_nil] using hst
  | cons l ls ih =>
    rw [initDyn_cons]
    cases hl : processLine plc typeOf st l with
    | error e => simpa using hst
    | ok st' =>
      simp only
      refine ih st' ?_
      intro b hb
      rcases processLine_attr_handlers plc typeOf st st' l hl b hb with hb' | hb'
      · exact hst b hb'
      · exact hb'

/-- C9 witness: out of a manifest with one read-only and one read-write line,
the attribute registered for the read-only line has both generic handlers
bound; the witness discharges its membership in the built device's attribute
list by computation. -/
theorem C9_setter_always_bound_witness :
    (⟨"out", (), .READ, .genericRead, .genericWrite⟩ : AttrSpec Unit).fget
        = Handler.genericRead ∧
    (⟨"out", (), .READ, .genericRead, .genericWrite⟩ : AttrSpec Unit).fset
        = Handler.genericWrite :=
  C9_setter_always_bound plcA tyUnit ["MAIN.x, out, ro", "MAIN.x, setp, rw"]
    (initialDev Unit) (by decide)
    ⟨"out", (), .READ, .genericRead, .genericWrite⟩ (by decide)

/-! ### C10 — read_float_array ignores extra input elements -/

/-- C10: `read_float_array` uses only `argin[0][0]` and `argin[1][0]`; any
further elements of the integer array or the string array do not affect the
result. -/
theorem C10_ignores_extra_elements {V : Type} (plc : Plc V) (n : Int)
    (s : String) (r1 : List Int) (r2 : List String) :
    read_float_array plc (n :: r1, s :: r2) = read_float_array plc ([n], [s]) := rfl
